import Mathlib

/-!
Verification of the django-docsnaps repository: a shallow embedding of the
job-execution engine (`django_docsnaps/management/commands/_run.py`) and the
two hierarchical install loaders
(`docsnaps/management/commands/_install.py` and
`django_docsnaps/management/commands/_install.py`), together with theorems
settling the specification claims about change detection, latest-snapshot
queries, failure isolation, loader idempotence, URL refresh, transactional
rollback, warning surfacing and the is_enabled flag.

Machine integers, auto-increment primary keys and timestamps are modelled as
`Nat`; a SQL `datetime` value is a `Nat` and its `date`/`time` components are
its quotient and remainder by the number of seconds in a day.  Database
tables are Lean lists of structure values; `NULL`-able columns are `Option`.
Auto-managed `updated_timestamp` columns are omitted: no modelled behavior
reads them.
-/

set_option autoImplicit false

namespace Docsnaps

/-! ## Shared entity model (docsnaps/models.py)

Rows as stored in the database.  Surrogate primary keys are explicit so that
foreign keys can be modelled faithfully.  These shapes are shared by both
schema variants; the tables that differ between the variants (Document, and
the ancestor Company/Service chain) are declared inside the variant
namespaces below. -/

/-- A stored `language` row: surrogate id, name and the ISO 639-1 code that
is its unique natural key. -/
structure Language where
  language_id : Nat
  name : String
  code_iso_639_1 : String
deriving DecidableEq, Repr

/-- A stored `documents_languages` row (a "document instance", the unit of
monitoring): document and language foreign keys (the natural key), the fetch
URL and the enabled flag. -/
structure DocumentsLanguages where
  documents_languages_id : Nat
  document_id : Nat
  language_id : Nat
  url : String
  is_enabled : Bool
deriving DecidableEq, Repr

/-- A stored `snapshot` row: owning document instance, the captured date,
time and combined datetime, and the (nullable) captured text. -/
structure Snapshot where
  snapshot_id : Nat
  documents_languages_id : Nat
  date : Nat
  time : Nat
  datetime : Nat
  text : Option String
deriving DecidableEq, Repr

/-- A stored `transform` row: the registration of a plugin module's
transform for a document, with its execution priority. -/
structure Transform where
  transform_id : Nat
  document_id : Nat
  module : String
  execution_priority : Int
deriving DecidableEq, Repr

/-- Seconds in a day: the granularity at which a combined datetime splits
into a date component and a time-of-day component. -/
def secondsPerDay : Nat := 86400

/-- The date component of a combined datetime value. -/
def dateOf (dt : Nat) : Nat := dt / secondsPerDay

/-- The time-of-day component of a combined datetime value. -/
def timeOf (dt : Nat) : Nat := dt % secondsPerDay

/-! ## Run command state (django_docsnaps/management/commands/_run.py)

The run command touches three tables: the job table, the snapshot table and
the transform registrations. -/

/-- The slice of database state read and written by the `run` command. -/
structure DB where
  documents_languages : List DocumentsLanguages
  snapshots : List Snapshot
  transforms : List Transform
deriving DecidableEq, Repr

/-- `Command._get_active_jobs`: filter the job table on `is_enabled=True`. -/
def getActiveJobs (db : DB) : List DocumentsLanguages :=
  db.documents_languages.filter (fun dl => dl.is_enabled)

/-- The raw self-join query of `Command._get_latest_snapshots`: keep each
snapshot row that has no later sibling for the same document instance
(`LEFT JOIN ... snapshot_2.datetime > snapshot.datetime ... WHERE
snapshot_2.snapshot_id IS NULL`) and whose document instance is enabled
(`INNER JOIN documents_languages ... is_enabled IS TRUE`). -/
def latestRows (db : DB) : List Snapshot :=
  db.snapshots.filter (fun s =>
    (db.snapshots.all (fun s2 =>
      !(s2.documents_languages_id == s.documents_languages_id
        && s.datetime < s2.datetime)))
    && (db.documents_languages.any (fun dl =>
      dl.documents_languages_id == s.documents_languages_id
        && dl.is_enabled)))

/-- `Command._get_latest_snapshots`: the query result keyed by
`documents_languages_id`, as the association list underlying the Python
dict comprehension. -/
def getLatestSnapshots (db : DB) : List (Nat × Snapshot) :=
  (latestRows db).map (fun s => (s.documents_languages_id, s))

/-- Lookup in a Python dict built by comprehension: the last binding for a
key wins, and a missing key yields `None` (`snapshots.get(id, None)`). -/
def dictGet (d : List (Nat × Snapshot)) (key : Nat) : Option Snapshot :=
  ((d.filter (fun p => p.1 == key)).getLast?).map (fun p => p.2)

/-- The next auto-increment primary key for the snapshot table: one more
than the largest id in use. -/
def nextSnapshotId (db : DB) : Nat :=
  1 + db.snapshots.foldr (fun s m => max s.snapshot_id m) 0

/-- `Command._save_new_snapshot`: append a new snapshot row for the job
carrying the passed text.  Modelled from the spec: the module
`django_docsnaps.models` is not in the source tree, so the auto-population
of the `date`, `time` and `datetime` columns on save follows the spec's
write contract (the current timestamp, decomposed into date/time/datetime);
the column layout is cross-checked against `docsnaps/models.py`. -/
def saveNewSnapshot (job : DocumentsLanguages) (snapshot_text : String)
    (now : Nat) (db : DB) : DB :=
  { db with
    snapshots := db.snapshots ++
      [{ snapshot_id := nextSnapshotId db
         documents_languages_id := job.documents_languages_id
         date := dateOf now
         time := timeOf now
         datetime := now
         text := some snapshot_text }] }

/-- `Command._execute_single_job` after the document has been fetched: the
job module's `transform` receives the fetched text and returns the
transformed text together with the changed flag; a new snapshot is saved
exactly when that flag is set.  The `snapshot` argument mirrors the
method's parameter, which the body never reads. -/
def executeSingleJob (transform : String → String × Bool)
    (job : DocumentsLanguages) (doc_text : String)
    (snapshot : Option Snapshot) (now : Nat) (db : DB) : DB :=
  if (transform doc_text).2 then
    saveNewSnapshot job (transform doc_text).1 now db
  else db

/-! ## The concurrent run (`Command._execute_enabled_jobs`)

One asyncio task is created per enabled job; `asyncio.wait(tasks)` is called
with its default `return_when=ALL_COMPLETED`, whose documented library
semantics are: the join returns only once every task is done, and a task
that raises stores its exception as that task's terminal state without
cancelling the other tasks.  The tasks share no mutable state: each reads
the snapshot map prefetched before the fan-out and writes only its own new
snapshot row, so the batch is modelled as one independent per-job
computation per task whose writes are then collected.  A job's HTTP fetch
(`Command._request_document`) is an oracle `String → Except String String`
from URL to fetched text or a classified error. -/

/-- The terminal state of one job task: a saved snapshot with its text, no
change, or a failure (the stored exception of the task). -/
inductive JobOutcome where
  | saved (text : String)
  | unchanged
  | failed (error : String)
deriving DecidableEq, Repr

/-- One job task run to its terminal state: a fetch error makes the task
fail (the exception of `_request_document` ends the task), otherwise the
module transform decides between saving and no change, exactly as in
`executeSingleJob`.  The prefetched `snapshot` argument is passed along and,
as in the source, not read. -/
def runJob (transform : String → String × Bool)
    (fetchResult : Except String String)
    (snapshot : Option Snapshot) : JobOutcome :=
  match fetchResult with
  | .error e => .failed e
  | .ok doc_text =>
    if (transform doc_text).2 then .saved (transform doc_text).1
    else .unchanged

/-- Collect the writes of the finished tasks: each saved outcome appends its
job's new snapshot row; unchanged and failed tasks write nothing. -/
def applyOutcomes (pairs : List (DocumentsLanguages × JobOutcome))
    (now : Nat) (db : DB) : DB :=
  pairs.foldl
    (fun acc p =>
      match p.2 with
      | .saved text => saveNewSnapshot p.1 text now acc
      | _ => acc)
    db

/-- `Command._execute_enabled_jobs`: prefetch the latest-snapshot map once,
run one task per job to a terminal state, join on all of them, and collect
their writes. -/
def executeEnabledJobs (transform : String → String × Bool)
    (fetch : String → Except String String)
    (active_jobs : List DocumentsLanguages) (now : Nat) (db : DB) :
    DB × List JobOutcome :=
  let snapshots := getLatestSnapshots db
  let outcomes := active_jobs.map (fun job =>
    runJob transform (fetch job.url)
      (dictGet snapshots job.documents_languages_id))
  (applyOutcomes (active_jobs.zip outcomes) now db, outcomes)

/-- `Command.handle` of the run command: the final status line depends only
on whether any enabled job exists; the per-task outcomes returned by the
join are discarded. -/
def handleRunMessage (active_jobs : List DocumentsLanguages) : String :=
  if active_jobs.isEmpty then
    "Job execution complete: No active jobs found."
  else
    "Job execution complete: Active jobs completed successfully."

end Docsnaps

/-- Decidable equality of `Except` results, used to evaluate loader runs on
concrete inputs. -/
instance {ε α : Type} [DecidableEq ε] [DecidableEq α] :
    DecidableEq (Except ε α) := fun a b =>
  match a, b with
  | .ok x, .ok y =>
    if h : x = y then isTrue (by rw [h])
    else isFalse (by intro hc; cases hc; exact h rfl)
  | .error x, .error y =>
    if h : x = y then isTrue (by rw [h])
    else isFalse (by intro hc; cases hc; exact h rfl)
  | .ok _, .error _ => isFalse (by intro hc; cases hc)
  | .error _, .ok _ => isFalse (by intro hc; cases hc)

namespace Orm

/-! ## Django ORM primitives used by the loaders -/

/-- The storage errors the loaders distinguish: `MultipleObjectsReturned`
when a supposedly unique natural key matches several rows. -/
inductive LoadError where
  | multipleObjectsReturned
deriving DecidableEq, Repr

/-- The next auto-increment primary key of a table: one more than the
largest id in use. -/
def freshId {α : Type} (getId : α → Nat) (table : List α) : Nat :=
  1 + table.foldr (fun r m => max (getId r) m) 0

/-- Django's `Manager.get_or_create` on one table: look the row up by the
natural-key value `v` under the key function `k`; if none exists, insert the
row built by `make` (from a fresh primary key) unchanged; if exactly one
exists, return it without touching any field; if several exist, raise
`MultipleObjectsReturned`.  Returns the row, the `created` flag and the
resulting table. -/
def getOrCreate {α κ : Type} [DecidableEq κ] (k : α → κ) (v : κ)
    (make : Nat → α) (getId : α → Nat) (table : List α) :
    Except LoadError (α × Bool × List α) :=
  match table.filter (fun a => decide (k a = v)) with
  | [] =>
    let row := make (freshId getId table)
    .ok (row, true, table ++ [row])
  | [x] => .ok (x, false, table)
  | _ => .error .multipleObjectsReturned

end Orm

namespace Docsnaps

/-! ## Incoming plugin entity graphs

The in-memory, not-yet-persisted model instances handed to a loader by a
plugin module's `get_models()`: a DocumentsLanguages root whose ancestor
chain is reached through relationship fields. -/

/-- An incoming language: name and ISO 639-1 code, no id yet. -/
structure NewLanguage where
  name : String
  code_iso_639_1 : String
deriving DecidableEq, Repr

end Docsnaps

namespace DocsnapsInstall

/-! ## The hierarchical loader of docsnaps/management/commands/_install.py

The schema variant with the full Company → Service → Document ancestor
chain.  `ModelLoader._load` upserts the chain top-down by natural key and
`Command._load_models` wraps the whole multi-graph loop in one
`transaction.atomic()` block. -/

open Docsnaps (Language DocumentsLanguages Transform NewLanguage)
open Orm (LoadError)

/-- A stored `company` row: the name is the unique natural key. -/
structure Company where
  company_id : Nat
  name : String
  website : Option String
deriving DecidableEq, Repr

/-- A stored `service` row: natural key (company, name). -/
structure Service where
  service_id : Nat
  company_id : Nat
  name : String
  website : Option String
deriving DecidableEq, Repr

/-- A stored `document` row of this variant: natural key (service, name). -/
structure Document where
  document_id : Nat
  service_id : Nat
  name : String
deriving DecidableEq, Repr

/-- An incoming company. -/
structure NewCompany where
  name : String
  website : Option String
deriving DecidableEq, Repr

/-- An incoming service with its owning company. -/
structure NewService where
  name : String
  website : Option String
  company : NewCompany
deriving DecidableEq, Repr

/-- An incoming document with its owning service. -/
structure NewDocument where
  name : String
  service : NewService
deriving DecidableEq, Repr

/-- The incoming DocumentsLanguages root of one plugin entity graph. -/
structure NewDocumentsLanguages where
  document : NewDocument
  language : NewLanguage
  url : String
  is_enabled : Bool
deriving DecidableEq, Repr

/-- The database state touched by this install variant. -/
structure DSDB where
  companies : List Company
  services : List Service
  documents : List Document
  languages : List Language
  documents_languages : List DocumentsLanguages
  transforms : List Transform
deriving DecidableEq, Repr

/-- The warnings `ModelLoader` accumulates, one constructor per distinct
warning site of `_load`: a found ancestor whose non-key field differs
(`_generate_warning`, "Existing record will not be updated"), and an already
registered transform. -/
inductive Warning where
  | companyDiffers (existingWebsite newWebsite : Option String)
  | serviceDiffers (existingWebsite newWebsite : Option String)
  | languageDiffers (existingName newName : String)
  | docsLangsUrlDiffers (oldUrl newUrl : String)
  | docsLangsEnabledDiffers (oldValue newValue : Bool)
  | transformExists (moduleName : String) (documentName : String)
deriving DecidableEq, Repr

/-- `ModelLoader._load` of the docsnaps variant: upsert the chain
Company → Service → Document → Language → DocumentsLanguages → Transform by
natural key via `get_or_create`, never overwriting an existing row, and
collect the warnings in order.  The DocumentsLanguages defaults store
`is_enabled: self._disabled`, exactly as the source does.  On a storage
error the partially mutated database reached so far is returned alongside
the error: rollback is the caller's concern. -/
def load (g : NewDocumentsLanguages) (moduleName : String) (disabled : Bool)
    (db : DSDB) : (DSDB × List Warning) ⊕ (DSDB × LoadError) :=
  let new_company := g.document.service.company
  match Orm.getOrCreate (fun c => c.name) new_company.name
      (fun i => { company_id := i, name := new_company.name,
                  website := new_company.website })
      (fun c => c.company_id) db.companies with
  | .error e => .inr (db, e)
  | .ok (company, _, companies) =>
    let db := { db with companies := companies }
    let ws : List Warning :=
      if new_company.website != company.website then
        [.companyDiffers company.website new_company.website]
      else []
    let new_service := g.document.service
    match Orm.getOrCreate (fun s => (s.name, s.company_id))
        (new_service.name, company.company_id)
        (fun i => { service_id := i, company_id := company.company_id,
                    name := new_service.name,
                    website := new_service.website })
        (fun s => s.service_id) db.services with
    | .error e => .inr (db, e)
    | .ok (service, _, services) =>
      let db := { db with services := services }
      let ws := ws ++
        (if new_service.website != service.website then
          [.serviceDiffers service.website new_service.website]
        else [])
      let new_document := g.document
      match Orm.getOrCreate (fun d => (d.name, d.service_id))
          (new_document.name, service.service_id)
          (fun i => { document_id := i, service_id := service.service_id,
                      name := new_document.name })
          (fun d => d.document_id) db.documents with
      | .error e => .inr (db, e)
      | .ok (document, _, documents) =>
        let db := { db with documents := documents }
        let new_language := g.language
        match Orm.getOrCreate (fun l => l.code_iso_639_1)
            new_language.code_iso_639_1
            (fun i => { language_id := i, name := new_language.name,
                        code_iso_639_1 := new_language.code_iso_639_1 })
            (fun l => l.language_id) db.languages with
        | .error e => .inr (db, e)
        | .ok (language, _, languages) =>
          let db := { db with languages := languages }
          let ws := ws ++
            (if new_language.name != language.name then
              [.languageDiffers language.name new_language.name]
            else [])
          match Orm.getOrCreate
              (fun r => (r.document_id, r.language_id))
              (document.document_id, language.language_id)
              (fun i => { documents_languages_id := i,
                          document_id := document.document_id,
                          language_id := language.language_id,
                          url := g.url, is_enabled := disabled })
              (fun r => r.documents_languages_id)
              db.documents_languages with
          | .error e => .inr (db, e)
          | .ok (docs_langs, _, documents_languages) =>
            let db := { db with documents_languages := documents_languages }
            let ws := ws ++
              (if g.url != docs_langs.url then
                [.docsLangsUrlDiffers docs_langs.url g.url]
              else if g.is_enabled != docs_langs.is_enabled then
                [.docsLangsEnabledDiffers docs_langs.is_enabled g.is_enabled]
              else [])
            match Orm.getOrCreate (fun t => (t.document_id, t.module))
                (document.document_id, moduleName)
                (fun i => { transform_id := i,
                            document_id := document.document_id,
                            module := moduleName, execution_priority := 0 })
                (fun t => t.transform_id) db.transforms with
            | .error e => .inr (db, e)
            | .ok (_, createdT, transforms) =>
              let db := { db with transforms := transforms }
              let ws := ws ++
                (if createdT then []
                else [.transformExists moduleName document.name])
              .inl (db, ws)

/-- The loop body of `Command._load_models`: run `ModelLoader` on each graph
of `module.get_models()` in order, threading the database.  The surfaced
warning list is the `warnings` attribute of the `model_loader` variable
after the loop, i.e. of the loader of the last graph only.  A storage error
carries the partially mutated database out to the transaction wrapper. -/
def loadGraphs (graphs : List NewDocumentsLanguages) (moduleName : String)
    (disabled : Bool) (db : DSDB) :
    (DSDB × List Warning) ⊕ (DSDB × LoadError) :=
  match graphs with
  | [] => .inl (db, [])
  | g :: rest =>
    match load g moduleName disabled db with
    | .inr err => .inr err
    | .inl (db', ws) =>
      match loadGraphs rest moduleName disabled db' with
      | .inr err => .inr err
      | .inl (db'', ws') => .inl (db'', if rest.isEmpty then ws else ws')

/-- `Command._load_models`: the whole multi-graph loop runs inside one
`transaction.atomic()` block.  On success the final state and the surfaced
warnings are returned; a `MultipleObjectsReturned` or database error rolls
the transaction back — the partially mutated state is discarded and the
original state is kept — and surfaces as a `CommandError` load failure. -/
def loadModels (graphs : List NewDocumentsLanguages) (moduleName : String)
    (disabled : Bool) (db : DSDB) : DSDB × Except LoadError (List Warning) :=
  match loadGraphs graphs moduleName disabled db with
  | .inl (db', ws) => (db', .ok ws)
  | .inr (_, e) => (db, .error e)

/-- Modelled from the spec: the full set of warnings generated across every
entity graph the plugin supplies ("every non-fatal error produces a
structured warning ... surfaced to the caller", "an ordered list of
human-readable warning strings").  This is the claim-side quantity that the
surfaced list of `loadModels` is compared against. -/
def generatedWarnings (graphs : List NewDocumentsLanguages)
    (moduleName : String) (disabled : Bool) (db : DSDB) : List Warning :=
  match graphs with
  | [] => []
  | g :: rest =>
    match load g moduleName disabled db with
    | .inr _ => []
    | .inl (db', ws) => ws ++ generatedWarnings rest moduleName disabled db'

end DocsnapsInstall

namespace DjangoDocsnapsInstall

/-! ## The loader of django_docsnaps/management/commands/_install.py

The simplified schema variant: Document carries a flat `module` field and
has no Company/Service ancestors; the natural key of a document is
(module, name).  This `ModelLoader._load` is the variant that updates
`DocumentsLanguages.url` in place when it changed, and that stores
`is_enabled = (self._disabled == False)` on insert. -/

open Docsnaps (Language DocumentsLanguages NewLanguage)
open Orm (LoadError)

/-- A stored `document` row of this variant: natural key (module, name). -/
structure Document where
  document_id : Nat
  module : String
  name : String
deriving DecidableEq, Repr

/-- An incoming document of this variant. -/
structure NewDocument where
  module : String
  name : String
deriving DecidableEq, Repr

/-- The incoming DocumentsLanguages root of one plugin entity graph.  The
`is_enabled` field exists on the in-memory model but this loader never
reads it. -/
structure NewDocumentsLanguages where
  document : NewDocument
  language : NewLanguage
  url : String
  is_enabled : Bool
deriving DecidableEq, Repr

/-- The database state touched by this install variant (the Transform
registration step is commented out in this source file, so the transform
table is untouched and omitted). -/
structure DDB where
  documents : List Document
  languages : List Language
  documents_languages : List DocumentsLanguages
deriving DecidableEq, Repr

/-- The warnings of this `ModelLoader`, one constructor per warning site:
an already-existing document, an already-existing language (whose message
additionally notes when the stored and incoming names differ
case-insensitively), and an in-place URL update with its old and new
values. -/
inductive Warning where
  | documentExists (name : String) (moduleName : String)
  | languageExists (code : String) (namesDiffer : Bool)
  | urlUpdated (oldUrl : String) (newUrl : String)
deriving DecidableEq, Repr

/-- `ModelLoader._load` of the django_docsnaps variant: get-or-create the
Document by (module, name) and the Language by ISO code, warn when either
already exists; get-or-create the DocumentsLanguages by (document,
language) with defaults `url` and `is_enabled = (disabled == False)`; when
it already exists and the incoming url differs, update the stored url in
place and warn with the old and new values. -/
def load (g : NewDocumentsLanguages) (disabled : Bool) (db : DDB) :
    Except LoadError (DDB × List Warning) :=
  let new_document := g.document
  match Orm.getOrCreate (fun d => (d.module, d.name))
      (new_document.module, new_document.name)
      (fun i => { document_id := i, module := new_document.module,
                  name := new_document.name })
      (fun d => d.document_id) db.documents with
  | .error e => .error e
  | .ok (document, createdD, documents) =>
    let db := { db with documents := documents }
    let ws : List Warning :=
      if createdD then []
      else [.documentExists new_document.name new_document.module]
    let new_language := g.language
    match Orm.getOrCreate (fun l => l.code_iso_639_1)
        new_language.code_iso_639_1
        (fun i => { language_id := i, name := new_language.name,
                    code_iso_639_1 := new_language.code_iso_639_1 })
        (fun l => l.language_id) db.languages with
    | .error e => .error e
    | .ok (language, createdL, languages) =>
      let db := { db with languages := languages }
      let ws := ws ++
        (if createdL then []
        else [.languageExists new_language.code_iso_639_1
          (new_language.name.toLower != language.name.toLower)])
      let is_enabled := disabled == false
      match Orm.getOrCreate (fun r => (r.document_id, r.language_id))
          (document.document_id, language.language_id)
          (fun i => { documents_languages_id := i,
                      document_id := document.document_id,
                      language_id := language.language_id,
                      url := g.url, is_enabled := is_enabled })
          (fun r => r.documents_languages_id)
          db.documents_languages with
      | .error e => .error e
      | .ok (docs_langs, createdR, documents_languages) =>
        let db := { db with documents_languages := documents_languages }
        if !createdR && g.url != docs_langs.url then
          .ok ({ db with
                  documents_languages := db.documents_languages.map
                    (fun r =>
                      if r.documents_languages_id ==
                          docs_langs.documents_languages_id then
                        { r with url := g.url }
                      else r) },
               ws ++ [.urlUpdated docs_langs.url g.url])
        else
          .ok (db, ws)

/-- The url-update warnings among a warning list, used to count how many
warnings describe the in-place URL refresh. -/
def isUrlWarning (w : Warning) : Bool :=
  match w with
  | .urlUpdated _ _ => true
  | _ => false

end DjangoDocsnapsInstall

namespace Docsnaps

/-! ## Specification-side definitions

These definitions follow the spec's words, not the source; each is compared
against the behavior of the embedded source code. -/

/-- Modelled from the spec: the change comparison the spec prescribes for
the executor — exact string equality of the latest stored snapshot's text
against the newly transformed text, a missing prior snapshot counting as
changed. -/
def specChanged (snapshot : Option Snapshot) (new_text : String) : Bool :=
  match snapshot with
  | none => true
  | some s => s.text != some new_text

/-- Modelled from the spec: the prescribed transform pipeline — all
transforms registered for the owning document, ordered by ascending
execution priority, each one's output feeding the next, the raw text
passing through unchanged when none is registered.  `registry` resolves a
registered module name to its transform function. -/
def applyTransforms (registry : String → String → String)
    (transforms : List Transform) (document_id : Nat) (raw : String) :
    String :=
  (((transforms.filter (fun t => t.document_id == document_id)).mergeSort
      (fun a b => decide (a.execution_priority ≤ b.execution_priority))).foldl
    (fun text t => registry t.module text) raw)

/-- The C2 claim as stated: every document instance with at least one
snapshot — enabled or not — receives an entry in the latest-snapshot map.
Only presence is required here; the full claim (presence of the maximal
row) implies it. -/
def latestClaimStated (db : DB) : Prop :=
  ∀ dl ∈ db.documents_languages,
    (db.snapshots.any (fun s =>
      s.documents_languages_id == dl.documents_languages_id)) = true →
    (dictGet (getLatestSnapshots db) dl.documents_languages_id).isSome = true

/-- Database well-formedness used by the latest-snapshot theorem: the
`unique_together` constraint of the snapshot table — no two snapshot rows
share a document instance and a datetime. -/
def WFRun (db : DB) : Prop :=
  db.snapshots.Pairwise (fun a b =>
    ¬(a.documents_languages_id = b.documents_languages_id
      ∧ a.datetime = b.datetime))

/-- Whether a job outcome is a saved snapshot. -/
def isSaved (oc : JobOutcome) : Bool :=
  match oc with
  | .saved _ => true
  | _ => false

/-- The texts of the saved outcomes, in order. -/
def savedTexts (outcomes : List JobOutcome) : List String :=
  outcomes.filterMap (fun oc =>
    match oc with
    | .saved text => some text
    | _ => none)

/-! ## Concrete run-command inputs used by counterexamples and witnesses -/

/-- A job module transform that reports every document as changed while
leaving the text unchanged. -/
def c1T : String → String × Bool := fun text => (text, true)

/-- An enabled job. -/
def c1Job : DocumentsLanguages :=
  { documents_languages_id := 1, document_id := 1, language_id := 1,
    url := "http://example.test/tos", is_enabled := true }

/-- A stored snapshot of `c1Job` with text "a". -/
def c1Snap : Snapshot :=
  { snapshot_id := 1, documents_languages_id := 1, date := 0, time := 0,
    datetime := 0, text := some "a" }

/-- A database with one enabled job whose latest snapshot has text "a". -/
def c1Db : DB :=
  { documents_languages := [c1Job], snapshots := [c1Snap], transforms := [] }

/-- A disabled document instance. -/
def c2Dl : DocumentsLanguages :=
  { documents_languages_id := 1, document_id := 1, language_id := 1,
    url := "http://example.test/tos", is_enabled := false }

/-- A snapshot belonging to the disabled instance `c2Dl`. -/
def c2Snap : Snapshot :=
  { snapshot_id := 1, documents_languages_id := 1, date := 0, time := 3600,
    datetime := 3600, text := some "v1" }

/-- A database where the only document instance with snapshots is
disabled. -/
def c2Db : DB :=
  { documents_languages := [c2Dl], snapshots := [c2Snap], transforms := [] }

/-- An enabled document instance for the latest-snapshot witness. -/
def w2Dl : DocumentsLanguages :=
  { documents_languages_id := 7, document_id := 1, language_id := 1,
    url := "http://example.test/tos", is_enabled := true }

/-- The older of two snapshots of `w2Dl`. -/
def w2SnapOld : Snapshot :=
  { snapshot_id := 1, documents_languages_id := 7, date := 0, time := 10,
    datetime := 10, text := some "old" }

/-- The newer of two snapshots of `w2Dl`. -/
def w2SnapNew : Snapshot :=
  { snapshot_id := 2, documents_languages_id := 7, date := 0, time := 20,
    datetime := 20, text := some "new" }

/-- A database with one enabled instance carrying two snapshots. -/
def w2Db : DB :=
  { documents_languages := [w2Dl], snapshots := [w2SnapOld, w2SnapNew],
    transforms := [] }

/-- A job module transform appending a marker and reporting change. -/
def c8T : String → String × Bool := fun text => (text ++ "x", true)

/-- A registry for the spec-side pipeline; irrelevant for a document with
zero registered transforms. -/
def c8Registry : String → String → String := fun _ text => text

/-- An enabled job whose document has no registered transforms. -/
def c8Job : DocumentsLanguages :=
  { documents_languages_id := 1, document_id := 1, language_id := 1,
    url := "http://example.test/tos", is_enabled := true }

/-- A database with no snapshots and no transform registrations. -/
def c8Db : DB :=
  { documents_languages := [c8Job], snapshots := [], transforms := [] }

end Docsnaps

namespace DocsnapsInstall

/-! ## Wellformedness and concrete inputs for the install theorems -/

/-- Natural-key wellformedness of the install database: the unique
constraints of the schema — at most one row per natural-key value in each
table. -/
def WFds (db : DSDB) : Prop :=
  db.companies.Pairwise (fun a b => a.name ≠ b.name)
  ∧ db.services.Pairwise (fun a b =>
      (a.name, a.company_id) ≠ (b.name, b.company_id))
  ∧ db.documents.Pairwise (fun a b =>
      (a.name, a.service_id) ≠ (b.name, b.service_id))
  ∧ db.languages.Pairwise (fun a b => a.code_iso_639_1 ≠ b.code_iso_639_1)
  ∧ db.documents_languages.Pairwise (fun a b =>
      (a.document_id, a.language_id) ≠ (b.document_id, b.language_id))
  ∧ db.transforms.Pairwise (fun a b =>
      (a.document_id, a.module) ≠ (b.document_id, b.module))

/-- The empty install database. -/
def dsEmpty : DSDB :=
  { companies := [], services := [], documents := [], languages := [],
    documents_languages := [], transforms := [] }

/-- A concrete plugin entity graph. -/
def g4 : NewDocumentsLanguages :=
  { document :=
      { name := "Terms of Use",
        service :=
          { name := "Test", website := none,
            company := { name := "Test Inc", website := none } } },
    language := { name := "English", code_iso_639_1 := "en" },
    url := "http://example.test/tos",
    is_enabled := false }

/-- The database produced by installing `g4` with module "m4" into the
empty database. -/
def db4after : DSDB :=
  { companies := [{ company_id := 1, name := "Test Inc", website := none }],
    services := [{ service_id := 1, company_id := 1, name := "Test",
                   website := none }],
    documents := [{ document_id := 1, service_id := 1,
                    name := "Terms of Use" }],
    languages := [{ language_id := 1, name := "English",
                    code_iso_639_1 := "en" }],
    documents_languages := [{ documents_languages_id := 1, document_id := 1,
                              language_id := 1,
                              url := "http://example.test/tos",
                              is_enabled := false }],
    transforms := [{ transform_id := 1, document_id := 1, module := "m4",
                     execution_priority := 0 }] }

/-- A database whose language table violates the unique ISO-code
constraint: two rows share the code "en". -/
def db6 : DSDB :=
  { companies := [], services := [], documents := [],
    languages := [{ language_id := 1, name := "English",
                    code_iso_639_1 := "en" },
                  { language_id := 2, name := "Engl",
                    code_iso_639_1 := "en" }],
    documents_languages := [], transforms := [] }

/-- A graph whose language lookup hits the duplicated code of `db6` after
the company, service and document steps have already inserted rows. -/
def g6 : NewDocumentsLanguages :=
  { document :=
      { name := "Privacy",
        service :=
          { name := "Svc", website := none,
            company := { name := "Corp", website := none } } },
    language := { name := "English", code_iso_639_1 := "en" },
    url := "http://example.test/privacy",
    is_enabled := false }

/-- The partially mutated state `load g6` reaches before failing on the
duplicated language code: company, service and document already
inserted. -/
def db6mid : DSDB :=
  { companies := [{ company_id := 1, name := "Corp", website := none }],
    services := [{ service_id := 1, company_id := 1, name := "Svc",
                   website := none }],
    documents := [{ document_id := 1, service_id := 1, name := "Privacy" }],
    languages := [{ language_id := 1, name := "English",
                    code_iso_639_1 := "en" },
                  { language_id := 2, name := "Engl",
                    code_iso_639_1 := "en" }],
    documents_languages := [], transforms := [] }

/-- A graph already installed (as module "m9") in `db9`: re-loading it
generates a transform-already-registered warning. -/
def g9a : NewDocumentsLanguages :=
  { document :=
      { name := "Terms of Use",
        service :=
          { name := "Test", website := none,
            company := { name := "Test Inc", website := none } } },
    language := { name := "English", code_iso_639_1 := "en" },
    url := "http://example.test/tos",
    is_enabled := false }

/-- A second, entirely fresh graph: loading it generates no warnings. -/
def g9b : NewDocumentsLanguages :=
  { document :=
      { name := "Privacy Policy",
        service :=
          { name := "Other", website := none,
            company := { name := "Other Co", website := none } } },
    language := { name := "French", code_iso_639_1 := "fr" },
    url := "http://example.test/privacy",
    is_enabled := false }

/-- The database holding the previous install of `g9a` under module
"m9". -/
def db9 : DSDB :=
  { companies := [{ company_id := 1, name := "Test Inc", website := none }],
    services := [{ service_id := 1, company_id := 1, name := "Test",
                   website := none }],
    documents := [{ document_id := 1, service_id := 1,
                    name := "Terms of Use" }],
    languages := [{ language_id := 1, name := "English",
                    code_iso_639_1 := "en" }],
    documents_languages := [{ documents_languages_id := 1, document_id := 1,
                              language_id := 1,
                              url := "http://example.test/tos",
                              is_enabled := false }],
    transforms := [{ transform_id := 1, document_id := 1, module := "m9",
                     execution_priority := 0 }] }

end DocsnapsInstall

namespace DjangoDocsnapsInstall

/-! ## Concrete inputs for the django_docsnaps loader theorems -/

open Docsnaps (Language DocumentsLanguages NewLanguage)

/-- The empty install database of this variant. -/
def ddEmpty : DDB :=
  { documents := [], languages := [], documents_languages := [] }

/-- A concrete plugin entity graph of this variant. -/
def g10d : NewDocumentsLanguages :=
  { document := { module := "m10", name := "Doc" },
    language := { name := "English", code_iso_639_1 := "en" },
    url := "http://example.test/d",
    is_enabled := true }

/-- The database produced by installing `g10d` into the empty database with
the disabled flag unset: the job is stored enabled. -/
def dd10after : DDB :=
  { documents := [{ document_id := 1, module := "m10", name := "Doc" }],
    languages := [{ language_id := 1, name := "English",
                    code_iso_639_1 := "en" }],
    documents_languages := [{ documents_languages_id := 1, document_id := 1,
                              language_id := 1, url := "http://example.test/d",
                              is_enabled := true }] }

/-- A stored document for the URL-refresh witness. -/
def w5Doc : Document :=
  { document_id := 3, module := "m5", name := "Doc5" }

/-- A stored language for the URL-refresh witness. -/
def w5Lang : Language :=
  { language_id := 4, name := "English", code_iso_639_1 := "en" }

/-- A stored document instance whose URL is about to be refreshed. -/
def w5Dl : DocumentsLanguages :=
  { documents_languages_id := 9, document_id := 3, language_id := 4,
    url := "http://old.test/doc", is_enabled := true }

/-- A database containing `w5Doc`, `w5Lang` and `w5Dl`. -/
def w5Db : DDB :=
  { documents := [w5Doc], languages := [w5Lang],
    documents_languages := [w5Dl] }

/-- An incoming graph matching `w5Dl` by natural key but carrying a new
URL. -/
def w5G : NewDocumentsLanguages :=
  { document := { module := "m5", name := "Doc5" },
    language := { name := "English", code_iso_639_1 := "en" },
    url := "http://new.test/doc",
    is_enabled := true }

end DjangoDocsnapsInstall

namespace Docsnaps

/-! ## Theorems about the run command -/

/-- Unfolding lemma: collecting outcomes processes the head pair first. -/
theorem applyOutcomes_cons (p : DocumentsLanguages × JobOutcome)
    (rest : List (DocumentsLanguages × JobOutcome)) (now : Nat) (db : DB) :
    applyOutcomes (p :: rest) now db
      = applyOutcomes rest now
          (match p.2 with
           | .saved text => saveNewSnapshot p.1 text now db
           | _ => db) := rfl

/-- Collecting outcomes grows the snapshot table by exactly the number of
saved outcomes. -/
theorem applyOutcomes_snapshots_length (now : Nat) :
    ∀ (pairs : List (DocumentsLanguages × JobOutcome)) (db : DB),
      (applyOutcomes pairs now db).snapshots.length
        = db.snapshots.length
          + (pairs.filter (fun p => isSaved p.2)).length
  | [], db => by simp [applyOutcomes]
  | p :: rest, db => by
    rw [applyOutcomes_cons]
    cases hp : p.2 with
    | saved t =>
      rw [applyOutcomes_snapshots_length now rest]
      simp [saveNewSnapshot, List.filter_cons, isSaved, hp]
      omega
    | unchanged =>
      rw [applyOutcomes_snapshots_length now rest]
      simp [List.filter_cons, isSaved, hp]
    | failed e =>
      rw [applyOutcomes_snapshots_length now rest]
      simp [List.filter_cons, isSaved, hp]

/-- Filtering zipped pairs on a property of the second component counts the
same as filtering the second list, when lengths agree. -/
theorem zip_filter_snd_length {α β : Type} (q : β → Bool) :
    ∀ (l1 : List α) (l2 : List β), l1.length = l2.length →
      ((l1.zip l2).filter (fun p => q p.2)).length = (l2.filter q).length
  | [], [], _ => rfl
  | [], _ :: _, h => by simp at h
  | _ :: _, [], h => by simp at h
  | a :: l1, b :: l2, h => by
    have h' : l1.length = l2.length := by simpa using h
    by_cases hq : q b = true
    · simp [List.zip_cons_cons, List.filter_cons, hq,
        zip_filter_snd_length q l1 l2 h']
    · simp [List.zip_cons_cons, List.filter_cons, hq,
        zip_filter_snd_length q l1 l2 h']

/-- C1 counterexample: the claim that a new snapshot row is appended if and
only if the exact-string comparison against the latest stored snapshot
found a change is false at a concrete input — with a stored snapshot whose
text equals the fetched-and-transformed text, a module reporting
`changed = True` makes the executor append a row anyway. -/
theorem C1_compare_counterexample :
    ¬ ((executeSingleJob c1T c1Job "a" (some c1Snap) 5 c1Db).snapshots.length
        = c1Db.snapshots.length
          + (if specChanged (some c1Snap) (c1T "a").1 then 1 else 0)) := by
  decide

/-- C1 (amended): the executor does not itself compare the fetched text to
the latest stored snapshot — the prior-snapshot argument has no effect on
the result — and it appends exactly one new snapshot row, carrying the
module-transformed text, if and only if the job module's `transform`
returned a set changed flag. -/
theorem C1_change_detection_delegated (transform : String → String × Bool)
    (job : DocumentsLanguages) (doc_text : String)
    (snap snap' : Option Snapshot) (now : Nat) (db : DB) :
    executeSingleJob transform job doc_text snap now db
      = executeSingleJob transform job doc_text snap' now db
    ∧ executeSingleJob transform job doc_text snap now db
      = (if (transform doc_text).2 then
          saveNewSnapshot job (transform doc_text).1 now db
        else db)
    ∧ (executeSingleJob transform job doc_text snap now db).snapshots.length
      = db.snapshots.length + (if (transform doc_text).2 then 1 else 0) := by
  refine ⟨rfl, rfl, ?_⟩
  unfold executeSingleJob saveNewSnapshot
  cases h : (transform doc_text).2 <;> simp [h]

/-- C3: the run joins on every launched job task — the outcome list has one
terminal entry per enabled job — and failures are isolated: the i-th
outcome is a function of the i-th job's own fetch result and prefetched
snapshot alone, so a sibling's exception cannot change it; moreover every
saved job's write is kept, exactly one row per saved outcome, no matter how
many jobs fail. -/
theorem C3_run_join_and_isolation (transform : String → String × Bool)
    (fetch : String → Except String String)
    (active_jobs : List DocumentsLanguages) (now : Nat) (db : DB) :
    ((executeEnabledJobs transform fetch active_jobs now db).2).length
      = active_jobs.length
    ∧ (∀ i : Nat,
        ((executeEnabledJobs transform fetch active_jobs now db).2)[i]?
          = (active_jobs[i]?).map (fun job =>
              runJob transform (fetch job.url)
                (dictGet (getLatestSnapshots db)
                  job.documents_languages_id)))
    ∧ ((executeEnabledJobs transform fetch active_jobs now db).1).snapshots.length
      = db.snapshots.length
        + (List.filter isSaved
            ((executeEnabledJobs transform fetch active_jobs now db).2)).length := by
  refine ⟨by simp [executeEnabledJobs], ?_, ?_⟩
  · intro i
    simp [executeEnabledJobs]
  · show (applyOutcomes (active_jobs.zip _) now db).snapshots.length = _
    rw [applyOutcomes_snapshots_length,
      zip_filter_snd_length isSaved _ _ (by simp)]
    simp [executeEnabledJobs]

/-- Mapping the second component over zipped lists of equal length recovers
the second list. -/
theorem zip_map_snd {α β : Type} :
    ∀ (l1 : List α) (l2 : List β), l1.length = l2.length →
      (l1.zip l2).map (fun p => p.2) = l2
  | [], [], _ => rfl
  | [], _ :: _, h => by simp at h
  | _ :: _, [], h => by simp at h
  | a :: l1, b :: l2, h => by
    simp [List.zip_cons_cons, zip_map_snd l1 l2 (by simpa using h)]

/-- Collecting outcomes appends one row per saved outcome, in order, each
carrying the saved text and the current timestamp decomposed into its date
and time components; the rows already stored are kept untouched. -/
theorem applyOutcomes_spec (now : Nat) :
    ∀ (pairs : List (DocumentsLanguages × JobOutcome)) (db : DB),
      ∃ tail,
        (applyOutcomes pairs now db).snapshots = db.snapshots ++ tail
        ∧ tail.map (fun s => s.text)
            = (savedTexts (pairs.map (fun p => p.2))).map some
        ∧ ∀ s ∈ tail, s.datetime = now ∧ s.date = dateOf now
            ∧ s.time = timeOf now ∧ s.text.isSome = true
  | [], db =>
    ⟨[], by simp [applyOutcomes], by simp [savedTexts], by simp⟩
  | p :: rest, db => by
    rw [applyOutcomes_cons]
    cases hp : p.2 with
    | saved t =>
      obtain ⟨tail, h1, h2, h3⟩ :=
        applyOutcomes_spec now rest (saveNewSnapshot p.1 t now db)
      refine ⟨{ snapshot_id := nextSnapshotId db,
                documents_languages_id := p.1.documents_languages_id,
                date := dateOf now, time := timeOf now, datetime := now,
                text := some t } :: tail, ?_, ?_, ?_⟩
      · rw [h1]
        simp [saveNewSnapshot]
      · simp only [List.map_cons, savedTexts, List.filterMap_cons, hp]
        simp only [savedTexts] at h2
        rw [h2]
      · intro s hs
        rcases List.mem_cons.mp hs with hs | hs
        · subst hs
          simp
        · exact h3 s hs
    | unchanged =>
      obtain ⟨tail, h1, h2, h3⟩ := applyOutcomes_spec now rest db
      refine ⟨tail, h1, ?_, h3⟩
      simp only [List.map_cons, savedTexts, List.filterMap_cons, hp]
      simp only [savedTexts] at h2
      rw [h2]
    | failed e =>
      obtain ⟨tail, h1, h2, h3⟩ := applyOutcomes_spec now rest db
      refine ⟨tail, h1, ?_, h3⟩
      simp only [List.map_cons, savedTexts, List.filterMap_cons, hp]
      simp only [savedTexts] at h2
      rw [h2]

/-- C7: the snapshot writes of a run are append-only — the stored rows
survive unchanged as a prefix of the resulting table, and each appended row
carries the saved (transformed) text as a non-null value together with the
current timestamp decomposed into the date, time and datetime columns.  No
operation of the run command updates or deletes an existing snapshot
row. -/
theorem C7_snapshot_append_only (transform : String → String × Bool)
    (fetch : String → Except String String)
    (active_jobs : List DocumentsLanguages) (now : Nat) (db : DB) :
    ∃ tail,
      ((executeEnabledJobs transform fetch active_jobs now db).1).snapshots
        = db.snapshots ++ tail
      ∧ tail.map (fun s => s.text)
          = (savedTexts
              ((executeEnabledJobs transform fetch active_jobs now db).2)).map
            some
      ∧ ∀ s ∈ tail, s.datetime = now ∧ s.date = dateOf now
          ∧ s.time = timeOf now ∧ s.text.isSome = true := by
  obtain ⟨tail, h1, h2, h3⟩ :=
    applyOutcomes_spec now
      (active_jobs.zip (active_jobs.map (fun job =>
        runJob transform (fetch job.url)
          (dictGet (getLatestSnapshots db) job.documents_languages_id))))
      db
  rw [zip_map_snd _ _ (by simp)] at h2
  exact ⟨tail, h1, h2, h3⟩

/-- C8 counterexample: with zero transforms registered for the job's
document the spec-side pipeline leaves the raw text unchanged, yet the text
the executor persists is the raw text passed through the document module's
own transform — here the fetched "a" is persisted as "ax". -/
theorem C8_pipeline_counterexample :
    ¬ ((executeSingleJob c8T c8Job "a" none 5 c8Db).snapshots.map
        (fun s => s.text)
        = c8Db.snapshots.map (fun s => s.text)
          ++ [some (applyTransforms c8Registry c8Db.transforms
                c8Job.document_id "a")]) := by
  have h : applyTransforms c8Registry c8Db.transforms c8Job.document_id "a"
      = "a" := by
    simp [applyTransforms, c8Db]
  rw [h]
  decide

/-- C8 (amended): the run command never consults the Transform
registrations — replacing the transform table changes nothing but that
table in the result — and the persisted text is the raw fetched text passed
exactly once through the job document's own module transform, which also
supplies the changed flag; there is no registered-transform chain and no
zero-transform identity path. -/
theorem C8_single_module_transform (transform : String → String × Bool)
    (job : DocumentsLanguages) (doc_text : String) (snap : Option Snapshot)
    (now : Nat) (db : DB) (ts : List Transform) :
    executeSingleJob transform job doc_text snap now
        { db with transforms := ts }
      = { executeSingleJob transform job doc_text snap now db with
          transforms := ts }
    ∧ (executeSingleJob transform job doc_text snap now db).snapshots.map
        (fun s => s.text)
      = db.snapshots.map (fun s => s.text)
        ++ (if (transform doc_text).2 then [some (transform doc_text).1]
            else []) := by
  constructor
  · unfold executeSingleJob saveNewSnapshot nextSnapshotId
    cases h : (transform doc_text).2 <;> simp [h]
  · unfold executeSingleJob saveNewSnapshot
    cases h : (transform doc_text).2 <;> simp [h]

/-- The relation forbidding a shared instance-and-datetime pair is
symmetric. -/
theorem wfRunRel_symm : Symmetric (fun a b : Snapshot =>
    ¬(a.documents_languages_id = b.documents_languages_id
      ∧ a.datetime = b.datetime)) := by
  intro a b h hc
  exact h ⟨hc.1.symm, hc.2.symm⟩

/-- C2 counterexample: the claim quantifies over every document instance
with at least one snapshot, but the query's inner join keeps only enabled
instances — a disabled instance with a stored snapshot receives no entry in
the latest-snapshot map. -/
theorem C2_enabled_only_counterexample : ¬ latestClaimStated c2Db := by
  unfold latestClaimStated
  decide

/-- C2 (amended): for every enabled document instance with at least one
snapshot, the latest-snapshot map holds exactly that instance's snapshot
row of maximum datetime — every sibling row is no newer, and strictly older
when distinct, given the snapshot table's unique (instance, datetime)
constraint — and instances with no snapshot rows receive no entry. -/
theorem C2_latest_is_max_per_enabled_instance (db : DB) (hwf : WFRun db) :
    (∀ dl ∈ db.documents_languages, dl.is_enabled = true →
      ∀ s0 ∈ db.snapshots,
        s0.documents_languages_id = dl.documents_languages_id →
        ∃ m, dictGet (getLatestSnapshots db) dl.documents_languages_id
            = some m
          ∧ m ∈ db.snapshots
          ∧ m.documents_languages_id = dl.documents_languages_id
          ∧ (∀ s ∈ db.snapshots,
              s.documents_languages_id = dl.documents_languages_id →
              s.datetime ≤ m.datetime)
          ∧ (∀ s ∈ db.snapshots,
              s.documents_languages_id = dl.documents_languages_id →
              s ≠ m → s.datetime < m.datetime))
    ∧ (∀ i : Nat, (∀ s ∈ db.snapshots, s.documents_languages_id ≠ i) →
        dictGet (getLatestSnapshots db) i = none) := by
  constructor
  · intro dl hdl hen s0 hs0 hkey
    have hgroup0 : s0 ∈ db.snapshots.filter
        (fun s => s.documents_languages_id == dl.documents_languages_id) := by
      rw [List.mem_filter]
      exact ⟨hs0, by simp [hkey]⟩
    cases hms : (db.snapshots.filter
        (fun s => s.documents_languages_id ==
          dl.documents_languages_id)).argmax (fun s => s.datetime) with
    | none =>
      rw [List.argmax_eq_none] at hms
      rw [hms] at hgroup0
      cases hgroup0
    | some m0 =>
      have hm0mem : m0 ∈ db.snapshots.filter
          (fun s => s.documents_languages_id ==
            dl.documents_languages_id) :=
        List.argmax_mem (Option.mem_def.mpr hms)
      have hm0key : m0.documents_languages_id
          = dl.documents_languages_id := by
        have := (List.mem_filter.mp hm0mem).2
        simpa using this
      have hm0snap : m0 ∈ db.snapshots := List.mem_of_mem_filter hm0mem
      have hm0max : ∀ s ∈ db.snapshots,
          s.documents_languages_id = dl.documents_languages_id →
          s.datetime ≤ m0.datetime := by
        intro s hs hsk
        exact List.le_of_mem_argmax
          (List.mem_filter.mpr ⟨hs, by simp [hsk]⟩)
          (Option.mem_def.mpr hms)
      have hm0latest : m0 ∈ latestRows db := by
        rw [latestRows, List.mem_filter]
        refine ⟨hm0snap, ?_⟩
        rw [Bool.and_eq_true]
        constructor
        · rw [List.all_eq_true]
          intro s2 hs2
          by_cases hid : s2.documents_languages_id
              = m0.documents_languages_id
          · have : s2.datetime ≤ m0.datetime :=
              hm0max s2 hs2 (by rw [hid, hm0key])
            simp [hid, Nat.not_lt.mpr this]
          · simp [hid]
        · rw [List.any_eq_true]
          exact ⟨dl, hdl, by simp [hm0key, hen]⟩
      have hpair : (m0.documents_languages_id, m0)
          ∈ getLatestSnapshots db :=
        List.mem_map.mpr ⟨m0, hm0latest, rfl⟩
      have hpairP : (m0.documents_languages_id, m0)
          ∈ (getLatestSnapshots db).filter
            (fun p => p.1 == dl.documents_languages_id) := by
        rw [List.mem_filter]
        exact ⟨hpair, by simp [hm0key]⟩
      have hPne : (getLatestSnapshots db).filter
          (fun p => p.1 == dl.documents_languages_id) ≠ [] :=
        List.ne_nil_of_mem hpairP
      obtain ⟨p, hp⟩ : ∃ p, ((getLatestSnapshots db).filter
          (fun q => q.1 == dl.documents_languages_id)).getLast? = some p :=
        Option.isSome_iff_exists.mp (List.getLast?_isSome.mpr hPne)
      have hpP : p ∈ (getLatestSnapshots db).filter
          (fun q => q.1 == dl.documents_languages_id) :=
        List.mem_of_mem_getLast? hp
      have hpmem : p ∈ getLatestSnapshots db := List.mem_of_mem_filter hpP
      have hpkey : p.1 = dl.documents_languages_id := by
        have := (List.mem_filter.mp hpP).2
        simpa using this
      obtain ⟨s, hslatest, hsp⟩ := List.mem_map.mp hpmem
      have hskey : s.documents_languages_id = dl.documents_languages_id := by
        rw [← hsp] at hpkey
        exact hpkey
      have hssnap : s ∈ db.snapshots := by
        have := List.mem_of_mem_filter (by rw [latestRows] at hslatest; exact hslatest)
        exact this
      have hsmax : ∀ s2 ∈ db.snapshots,
          s2.documents_languages_id = dl.documents_languages_id →
          s2.datetime ≤ s.datetime := by
        intro s2 hs2 hs2k
        have hcond := (List.mem_filter.mp
          (show s ∈ _ from by rw [latestRows] at hslatest; exact hslatest)).2
        rw [Bool.and_eq_true] at hcond
        have hall := hcond.1
        rw [List.all_eq_true] at hall
        have := hall s2 hs2
        simp only [Bool.not_eq_true', Bool.and_eq_false_iff] at this
        rcases this with h | h
        · exfalso
          rw [beq_eq_false_iff_ne] at h
          exact h (by rw [hs2k, hskey])
        · rw [decide_eq_false_iff_not, Nat.not_lt] at h
          exact h
      refine ⟨p.2, ?_, ?_, ?_, ?_, ?_⟩
      · simp [dictGet, hp]
      · rw [← hsp]
        exact hssnap
      · rw [← hsp]
        exact hskey
      · rw [← hsp]
        exact hsmax
      · rw [← hsp]
        intro s2 hs2 hs2k hne
        have hle := hsmax s2 hs2 hs2k
        rcases Nat.lt_or_ge s2.datetime s.datetime with hlt | hge
        · exact hlt
        · exfalso
          have heq : s2.datetime = s.datetime := Nat.le_antisymm hle hge
          exact (hwf.forall wfRunRel_symm hs2 hssnap hne)
            ⟨by rw [hs2k, hskey], heq⟩
  · intro i hno
    have hP : (getLatestSnapshots db).filter (fun p => p.1 == i) = [] := by
      rw [List.filter_eq_nil_iff]
      intro p hp
      obtain ⟨s, hs, hsp⟩ := List.mem_map.mp hp
      have hssnap : s ∈ db.snapshots :=
        List.mem_of_mem_filter (by rw [latestRows] at hs; exact hs)
      rw [← hsp]
      simp [hno s hssnap]
    simp [dictGet, hP]

/-- Closed witness for the amended C2 theorem on a concrete database: one
enabled instance with two snapshots, the newer of which is returned. -/
theorem C2_latest_witness :
    WFRun w2Db
    ∧ ((∀ dl ∈ w2Db.documents_languages, dl.is_enabled = true →
        ∀ s0 ∈ w2Db.snapshots,
          s0.documents_languages_id = dl.documents_languages_id →
          ∃ m, dictGet (getLatestSnapshots w2Db) dl.documents_languages_id
              = some m
            ∧ m ∈ w2Db.snapshots
            ∧ m.documents_languages_id = dl.documents_languages_id
            ∧ (∀ s ∈ w2Db.snapshots,
                s.documents_languages_id = dl.documents_languages_id →
                s.datetime ≤ m.datetime)
            ∧ (∀ s ∈ w2Db.snapshots,
                s.documents_languages_id = dl.documents_languages_id →
                s ≠ m → s.datetime < m.datetime))
      ∧ (∀ i : Nat, (∀ s ∈ w2Db.snapshots, s.documents_languages_id ≠ i) →
          dictGet (getLatestSnapshots w2Db) i = none)) :=
  ⟨by unfold WFRun; decide,
   C2_latest_is_max_per_enabled_instance w2Db (by unfold WFRun; decide)⟩

end Docsnaps

namespace Orm

/-! ## Theorems about the get-or-create primitive -/

/-- A table pairwise-distinct on its key has at most one row per key
value. -/
theorem filter_key_length_le {α κ : Type} [DecidableEq κ] (k : α → κ) :
    ∀ (l : List α), l.Pairwise (fun a b => k a ≠ k b) →
      ∀ v : κ, (l.filter (fun a => decide (k a = v))).length ≤ 1
  | [], _, v => by simp
  | a :: l, h, v => by
    rw [List.pairwise_cons] at h
    by_cases hk : k a = v
    · have hempty : l.filter (fun b => decide (k b = v)) = [] := by
        rw [List.filter_eq_nil_iff]
        intro b hb
        simp only [decide_eq_true_eq]
        intro hbv
        exact (h.1 b hb) (by rw [hk, hbv])
      simp [List.filter_cons, hk, hempty]
    · simp only [List.filter_cons, decide_eq_true_eq, hk, if_false]
      exact filter_key_length_le k l h.2 v

/-- When the natural key already has exactly one row, `get_or_create`
returns that row, reports it as found and leaves the table untouched. -/
theorem getOrCreate_found {α κ : Type} [DecidableEq κ] (k : α → κ) (v : κ)
    (make : Nat → α) (getId : α → Nat) (table : List α) (x : α)
    (hf : table.filter (fun a => decide (k a = v)) = [x]) :
    getOrCreate k v make getId table = .ok (x, false, table) := by
  unfold getOrCreate
  rw [hf]

/-- Under the at-most-one-row constraint, `get_or_create` succeeds and the
resulting table holds exactly one row for the key — the returned one —
provided the made row carries the key. -/
theorem getOrCreate_spec {α κ : Type} [DecidableEq κ] (k : α → κ) (v : κ)
    (make : Nat → α) (getId : α → Nat) (table : List α)
    (hle : (table.filter (fun a => decide (k a = v))).length ≤ 1)
    (hmk : k (make (freshId getId table)) = v) :
    ∃ x created table',
      getOrCreate k v make getId table = .ok (x, created, table')
      ∧ k x = v
      ∧ table'.filter (fun a => decide (k a = v)) = [x] := by
  cases hf : table.filter (fun a => decide (k a = v)) with
  | nil =>
    refine ⟨make (freshId getId table), true,
      table ++ [make (freshId getId table)], ?_, hmk, ?_⟩
    · unfold getOrCreate
      rw [hf]
    · rw [List.filter_append, hf]
      simp [hmk]
  | cons y ys =>
    cases ys with
    | nil =>
      have hy : k y = v := by
        have hmem : y ∈ table.filter (fun a => decide (k a = v)) := by
          rw [hf]
          exact List.mem_cons_self y []
        simpa using (List.mem_filter.mp hmem).2
      refine ⟨y, false, table, ?_, hy, hf⟩
      unfold getOrCreate
      rw [hf]
    | cons z zs =>
      rw [hf] at hle
      simp at hle

end Orm

namespace DocsnapsInstall

/-! ## Theorems about the docsnaps install command -/

/-- C6: the loader's whole multi-graph upsert sequence sits inside one
transaction — whenever any step of it raises a storage or data-integrity
error, the partially mutated state is discarded, the caller observes the
database exactly as it was before the install, and the failure surfaces as
a load error. -/
theorem C6_atomic_rollback (graphs : List NewDocumentsLanguages)
    (moduleName : String) (disabled : Bool) (db dbMid : DSDB)
    (e : Orm.LoadError)
    (h : loadGraphs graphs moduleName disabled db = .inr (dbMid, e)) :
    loadModels graphs moduleName disabled db = (db, .error e) := by
  unfold loadModels
  rw [h]

/-- Closed witness for the rollback theorem: on `db6` the language step of
`g6` hits a duplicated ISO code after the company, service and document
rows were already inserted (`db6mid ≠ db6`), and `loadModels` nevertheless
returns the original `db6` with a surfaced error. -/
theorem C6_atomic_rollback_witness :
    loadGraphs [g6] "m6" false db6
      = .inr (db6mid, .multipleObjectsReturned)
    ∧ db6mid ≠ db6
    ∧ loadModels [g6] "m6" false db6
      = (db6, .error .multipleObjectsReturned) :=
  ⟨by decide, by decide,
   C6_atomic_rollback [g6] "m6" false db6 db6mid
     .multipleObjectsReturned (by decide)⟩

/-- C9: warnings are dropped, not surfaced — at a concrete two-graph
install whose first graph generates a transform-already-registered warning
and whose second generates none, the loader loop generates one warning but
`_load_models` surfaces none, because only the last `ModelLoader`'s
warnings survive the loop. -/
theorem C9_warnings_not_surfaced :
    (loadModels [g9a, g9b] "m9" false db9).2 = .ok []
    ∧ generatedWarnings [g9a, g9b] "m9" false db9
      = [.transformExists "m9" "Terms of Use"] := by
  constructor
  · decide
  · decide

/-- C10: evaluated at an empty store with the disabled flag unset, the
django_docsnaps loader stores the job enabled — `is_enabled` is the
negation of the flag — while the docsnaps loader stores the flag value
itself, leaving the job disabled, contrary to its own docstring. -/
theorem C10_is_enabled_flag :
    load g4 "m4" false dsEmpty = .inl (db4after, [])
    ∧ (db4after.documents_languages.map (fun r => r.is_enabled)) = [false]
    ∧ DjangoDocsnapsInstall.load DjangoDocsnapsInstall.g10d false
        DjangoDocsnapsInstall.ddEmpty
      = .ok (DjangoDocsnapsInstall.dd10after, [])
    ∧ (DjangoDocsnapsInstall.dd10after.documents_languages.map
        (fun r => r.is_enabled)) = [true] := by
  refine ⟨by decide, by decide, ?_, by decide⟩
  decide

end DocsnapsInstall

namespace DjangoDocsnapsInstall

/-! ## Theorems about the django_docsnaps install command -/

open Docsnaps (Language DocumentsLanguages NewLanguage)

/-- C5: when the loader finds an existing document instance for the
incoming natural key, an incoming url that differs is written in place over
the stored one with exactly one warning carrying the old and the new value,
and an unchanged url leaves the stored row untouched with no url
warning. -/
theorem C5_url_refresh (g : NewDocumentsLanguages) (disabled : Bool)
    (db : DDB) (d : Document) (l : Language) (r : DocumentsLanguages)
    (hd : db.documents.filter (fun a =>
        decide ((a.module, a.name)
          = (g.document.module, g.document.name))) = [d])
    (hl : db.languages.filter (fun a =>
        decide (a.code_iso_639_1 = g.language.code_iso_639_1)) = [l])
    (hr : db.documents_languages.filter (fun a =>
        decide ((a.document_id, a.language_id)
          = (d.document_id, l.language_id))) = [r]) :
    ∃ db' ws, load g disabled db = .ok (db', ws)
      ∧ (if g.url = r.url then
          db'.documents_languages = db.documents_languages
          ∧ ws.filter isUrlWarning = []
        else
          db'.documents_languages = db.documents_languages.map
            (fun a =>
              if a.documents_languages_id == r.documents_languages_id then
                { a with url := g.url }
              else a)
          ∧ ws.filter isUrlWarning = [.urlUpdated r.url g.url]) := by
  have h1 := Orm.getOrCreate_found
    (fun d : Document => (d.module, d.name))
    (g.document.module, g.document.name)
    (fun i => { document_id := i, module := g.document.module,
                name := g.document.name })
    (fun d => d.document_id) db.documents d hd
  have h2 := Orm.getOrCreate_found
    (fun l : Language => l.code_iso_639_1)
    g.language.code_iso_639_1
    (fun i => { language_id := i, name := g.language.name,
                code_iso_639_1 := g.language.code_iso_639_1 })
    (fun l => l.language_id) db.languages l hl
  have h3 := Orm.getOrCreate_found
    (fun r : DocumentsLanguages => (r.document_id, r.language_id))
    (d.document_id, l.language_id)
    (fun i => { documents_languages_id := i, document_id := d.document_id,
                language_id := l.language_id, url := g.url,
                is_enabled := disabled == false })
    (fun r => r.documents_languages_id) db.documents_languages r hr
  simp only [load, h1, h2, h3, Bool.not_false, Bool.true_and]
  by_cases hu : g.url = r.url
  · rw [show (g.url != r.url) = false by simp [hu]]
    refine ⟨_, _, rfl, ?_⟩
    rw [if_pos hu]
    exact ⟨rfl, by simp [isUrlWarning]⟩
  · rw [show (g.url != r.url) = true by simpa using hu]
    refine ⟨_, _, rfl, ?_⟩
    rw [if_neg hu]
    exact ⟨rfl, by simp [isUrlWarning]⟩

/-- Closed witness for the URL-refresh theorem: an existing instance stored
with the old URL, re-installed with a new one. -/
theorem C5_url_refresh_witness :
    (w5Db.documents.filter (fun a =>
        decide ((a.module, a.name)
          = (w5G.document.module, w5G.document.name))) = [w5Doc])
    ∧ (w5Db.languages.filter (fun a =>
        decide (a.code_iso_639_1 = w5G.language.code_iso_639_1)) = [w5Lang])
    ∧ (w5Db.documents_languages.filter (fun a =>
        decide ((a.document_id, a.language_id)
          = (w5Doc.document_id, w5Lang.language_id))) = [w5Dl])
    ∧ (∃ db' ws, load w5G false w5Db = .ok (db', ws)
        ∧ (if w5G.url = w5Dl.url then
            db'.documents_languages = w5Db.documents_languages
            ∧ ws.filter isUrlWarning = []
          else
            db'.documents_languages = w5Db.documents_languages.map
              (fun a =>
                if a.documents_languages_id
                    == w5Dl.documents_languages_id then
                  { a with url := w5G.url }
                else a)
            ∧ ws.filter isUrlWarning = [.urlUpdated w5Dl.url w5G.url])) :=
  ⟨by decide, by decide, by decide,
   C5_url_refresh w5G false w5Db w5Doc w5Lang w5Dl
     (by decide) (by decide) (by decide)⟩

end DjangoDocsnapsInstall

namespace DocsnapsInstall

open Docsnaps (Language DocumentsLanguages Transform NewLanguage)

/-- C4: installing the same plugin entity graph twice is idempotent.  When
a first load succeeds from a store satisfying the schema's unique
natural-key constraints, the second load of the same graph finds every
entity by its natural key, changes nothing at all — zero net new rows in
every table and every stored field kept — and emits at least one
already-exists warning (the transform registration is always reported as
already registered). -/
theorem C4_reinstall_idempotent (g : NewDocumentsLanguages)
    (moduleName : String) (disabled : Bool) (db0 db1 : DSDB)
    (ws1 : List Warning) (hwf : WFds db0)
    (h1 : load g moduleName disabled db0 = .inl (db1, ws1)) :
    ∃ ws2, load g moduleName disabled db1 = .inl (db1, ws2) ∧ ws2 ≠ [] := by
  obtain ⟨hwfC, hwfS, hwfD, hwfL, hwfR, hwfT⟩ := hwf
  obtain ⟨c, bc, tc, hceq, hck, hcf⟩ :=
    Orm.getOrCreate_spec (fun c : Company => c.name)
      g.document.service.company.name
      (fun i => { company_id := i, name := g.document.service.company.name,
                  website := g.document.service.company.website })
      (fun c => c.company_id) db0.companies
      (Orm.filter_key_length_le _ db0.companies hwfC _) rfl
  obtain ⟨s, bs, ts, hseq, hsk, hsf⟩ :=
    Orm.getOrCreate_spec (fun s : Service => (s.name, s.company_id))
      (g.document.service.name, c.company_id)
      (fun i => { service_id := i, company_id := c.company_id,
                  name := g.document.service.name,
                  website := g.document.service.website })
      (fun s => s.service_id) db0.services
      (Orm.filter_key_length_le _ db0.services hwfS _) rfl
  obtain ⟨d, bd, td, hdeq, hdk, hdf⟩ :=
    Orm.getOrCreate_spec (fun d : Document => (d.name, d.service_id))
      (g.document.name, s.service_id)
      (fun i => { document_id := i, service_id := s.service_id,
                  name := g.document.name })
      (fun d => d.document_id) db0.documents
      (Orm.filter_key_length_le _ db0.documents hwfD _) rfl
  obtain ⟨l, bl, tl, hleq, hlk, hlf⟩ :=
    Orm.getOrCreate_spec (fun l : Language => l.code_iso_639_1)
      g.language.code_iso_639_1
      (fun i => { language_id := i, name := g.language.name,
                  code_iso_639_1 := g.language.code_iso_639_1 })
      (fun l => l.language_id) db0.languages
      (Orm.filter_key_length_le _ db0.languages hwfL _) rfl
  obtain ⟨r, br, tr, hreq, hrk, hrf⟩ :=
    Orm.getOrCreate_spec
      (fun r : DocumentsLanguages => (r.document_id, r.language_id))
      (d.document_id, l.language_id)
      (fun i => { documents_languages_id := i,
                  document_id := d.document_id,
                  language_id := l.language_id,
                  url := g.url, is_enabled := disabled })
      (fun r => r.documents_languages_id) db0.documents_languages
      (Orm.filter_key_length_le _ db0.documents_languages hwfR _) rfl
  obtain ⟨t, bt, tt, hteq, htk, htf⟩ :=
    Orm.getOrCreate_spec
      (fun t : Transform => (t.document_id, t.module))
      (d.document_id, moduleName)
      (fun i => { transform_id := i, document_id := d.document_id,
                  module := moduleName, execution_priority := 0 })
      (fun t => t.transform_id) db0.transforms
      (Orm.filter_key_length_le _ db0.transforms hwfT _) rfl
  simp only [load, hceq, hseq, hdeq, hleq, hreq, hteq] at h1
  have hdb : DSDB.mk tc ts td tl tr tt = db1 :=
    congrArg Prod.fst (Sum.inl.inj h1)
  subst hdb
  have hceq2 := Orm.getOrCreate_found (fun c : Company => c.name)
    g.document.service.company.name
    (fun i => { company_id := i, name := g.document.service.company.name,
                website := g.document.service.company.website })
    (fun c => c.company_id) tc c hcf
  have hseq2 := Orm.getOrCreate_found
    (fun s : Service => (s.name, s.company_id))
    (g.document.service.name, c.company_id)
    (fun i => { service_id := i, company_id := c.company_id,
                name := g.document.service.name,
                website := g.document.service.website })
    (fun s => s.service_id) ts s hsf
  have hdeq2 := Orm.getOrCreate_found
    (fun d : Document => (d.name, d.service_id))
    (g.document.name, s.service_id)
    (fun i => { document_id := i, service_id := s.service_id,
                name := g.document.name })
    (fun d => d.document_id) td d hdf
  have hleq2 := Orm.getOrCreate_found
    (fun l : Language => l.code_iso_639_1)
    g.language.code_iso_639_1
    (fun i => { language_id := i, name := g.language.name,
                code_iso_639_1 := g.language.code_iso_639_1 })
    (fun l => l.language_id) tl l hlf
  have hreq2 := Orm.getOrCreate_found
    (fun r : DocumentsLanguages => (r.document_id, r.language_id))
    (d.document_id, l.language_id)
    (fun i => { documents_languages_id := i,
                document_id := d.document_id,
                language_id := l.language_id,
                url := g.url, is_enabled := disabled })
    (fun r => r.documents_languages_id) tr r hrf
  have hteq2 := Orm.getOrCreate_found
    (fun t : Transform => (t.document_id, t.module))
    (d.document_id, moduleName)
    (fun i => { transform_id := i, document_id := d.document_id,
                module := moduleName, execution_priority := 0 })
    (fun t => t.transform_id) tt t htf
  refine ⟨((((if (g.document.service.company.website != c.website) = true
        then [Warning.companyDiffers c.website
          g.document.service.company.website]
        else []) ++
      (if (g.document.service.website != s.website) = true then
        [Warning.serviceDiffers s.website g.document.service.website]
      else [])) ++
      (if (g.language.name != l.name) = true then
        [Warning.languageDiffers l.name g.language.name]
      else [])) ++
      (if (g.url != r.url) = true then
        [Warning.docsLangsUrlDiffers r.url g.url]
      else if (g.is_enabled != r.is_enabled) = true then
        [Warning.docsLangsEnabledDiffers r.is_enabled g.is_enabled]
      else [])) ++ [Warning.transformExists moduleName d.name], ?_, ?_⟩
  · simp only [load, hceq2, hseq2, hdeq2, hleq2, hreq2, hteq2]
    rfl
  · simp

/-- Closed witness for the idempotence theorem: `g4` installed twice from
the empty store. -/
theorem C4_reinstall_idempotent_witness :
    WFds dsEmpty
    ∧ (∃ ws2, load g4 "m4" false db4after = .inl (db4after, ws2)
        ∧ ws2 ≠ []) :=
  ⟨by unfold WFds; decide,
   C4_reinstall_idempotent g4 "m4" false dsEmpty db4after []
     (by unfold WFds; decide) (by decide)⟩

end DocsnapsInstall
